import Mathlib

/-!
Verification of the Monte Carlo π estimator (class MonteCarloPi, src/pi.js
and its variant with pause/resume/reset controls).

The estimation core is embedded shallowly:

* geometry constants (`squareSize`, `offset`, `radius`, `centerX`, `centerY`)
  are the hard-coded class fields, modelled over ℚ (the source values are
  exact small integers);
* the inside/outside classifier is the strict comparison
  `dx*dx + dy*dy < radius*radius` from `animate`;
* a sampled coordinate is `r * squareSize + offset` for a random draw `r`;
* the mutable object state (`total`, `inside`, `isRunning`, a scheduled
  timeout, the pause button label) becomes the structure `SimState`, and the
  methods `animate`, `pause`, `resume`, `reset` become state transformers;
  `animate` takes the two random draws of its tick as explicit arguments;
* `computeZScore` and the π-estimate line of `drawStats` are modelled over ℝ
  (the z-score uses π and a square root) and ℚ respectively.
-/

namespace MonteCarloPi

/-- Geometry field `squareSize = 500` of class MonteCarloPi. -/
def squareSize : ℚ := 500

/-- Geometry field `offset = 50` (offset from canvas edges). -/
def offset : ℚ := 50

/-- Geometry field `radius = squareSize / 2`. -/
def radius : ℚ := squareSize / 2

/-- Geometry field `centerX = offset + radius`. -/
def centerX : ℚ := offset + radius

/-- Geometry field `centerY = offset + radius`. -/
def centerY : ℚ := offset + radius

/-- The classifier from `animate`:
`dx = x - centerX`, `dy = y - centerY`, `isInside = dx*dx + dy*dy < radius*radius`. -/
def isInside (x y : ℚ) : Bool :=
  decide ((x - centerX) * (x - centerX) + (y - centerY) * (y - centerY)
    < radius * radius)

/-- A sampled coordinate from `animate`: `Math.random() * squareSize + offset`,
with the random draw `r` made explicit. Used for both x and y. -/
def sampleCoord (r : ℚ) : ℚ :=
  r * squareSize + offset

/-- The mutable state of a MonteCarloPi object: the two counters, the
running flag, whether a timeout is currently scheduled (`setTimeout` sets
one, `clearTimeout` cancels it), and the pause button label. -/
structure SimState where
  total : ℕ
  inside : ℕ
  isRunning : Bool
  pending : Bool
  pauseBtnLabel : String
deriving DecidableEq

/-- The counter update of one sample in `animate`:
`++this.total; if (isInside) ++this.inside;`. -/
def record (s : SimState) (isIn : Bool) : SimState :=
  { s with
    total := s.total + 1
    inside := if isIn then s.inside + 1 else s.inside }

/-- Method `animate()`: return unchanged when not running; otherwise sample a
point from the two random draws, classify it, record it, and schedule the
next tick (`setTimeout`). Drawing calls change no model state. -/
def animate (s : SimState) (rx ry : ℚ) : SimState :=
  if s.isRunning = false then s
  else
    let x := sampleCoord rx
    let y := sampleCoord ry
    { record s (isInside x y) with pending := true }

/-- Method `pause()`: stop running, cancel any scheduled timeout
(`clearTimeout`), set the button label to "Resume". -/
def pause (s : SimState) : SimState :=
  { s with isRunning := false, pending := false, pauseBtnLabel := "Resume" }

/-- Method `resume()`: only when not running, set the running flag, restore
the button label, and call `animate()` (which runs one tick at once, with
the two random draws made explicit). -/
def resume (s : SimState) (rx ry : ℚ) : SimState :=
  if s.isRunning = false then
    animate { s with isRunning := true, pauseBtnLabel := "Pause" } rx ry
  else s

/-- Method `reset()`: `pause()`, then set both counters to 0 (the canvas is
redrawn, which changes no model state). -/
def reset (s : SimState) : SimState :=
  { pause s with total := 0, inside := 0 }

/-- The field initializers of the class: counters 0, not running, no timeout
scheduled, button label "Pause". -/
def initSimState : SimState :=
  { total := 0, inside := 0, isRunning := false, pending := false
    pauseBtnLabel := "Pause" }

/-- The constructor: start from the field initializers; when `autoStart`, set
the running flag and call `animate()` (one immediate tick, with its two
random draws made explicit). -/
def construct (autoStart : Bool) (rx ry : ℚ) : SimState :=
  if autoStart then animate { initSimState with isRunning := true } rx ry
  else initSimState

/-- A sequence of timer-fired `animate()` calls, each with the two random
draws of its tick. -/
def runTicks (s : SimState) : List (ℚ × ℚ) → SimState
  | [] => s
  | r :: rs => runTicks (animate s r.1 r.2) rs

/-- Method `computeZScore()`, over ℝ: `p = π/4`; return 0 when `total = 0`;
otherwise `observed = inside/total`, `std = sqrt(p*(1-p)/total)`, and
return 0 when `std = 0`, else `(observed - p)/std`. -/
noncomputable def computeZScore (total inside : ℕ) : ℝ :=
  let p : ℝ := Real.pi / 4
  if total = 0 then 0
  else
    let observed : ℝ := (inside : ℝ) / (total : ℝ)
    let std : ℝ := Real.sqrt (p * (1 - p) / (total : ℝ))
    if std = 0 then 0 else (observed - p) / std

/-- The π-estimate line of `drawStats()`: the estimate
`(inside / total) * 4` is computed and shown only when `total > 0`, and
omitted otherwise. -/
def piEstimateReport (total inside : ℕ) : Option ℚ :=
  if 0 < total then some (((inside : ℚ) / (total : ℚ)) * 4) else none

/-- Helper: `animate` leaves a non-running state unchanged. -/
theorem animate_of_not_running (s : SimState) (rx ry : ℚ)
    (h : s.isRunning = false) : animate s rx ry = s := by
  simp [animate, h]

/-- Helper: `animate` never changes the running flag. -/
theorem animate_isRunning (s : SimState) (rx ry : ℚ) :
    (animate s rx ry).isRunning = s.isRunning := by
  by_cases h : s.isRunning = false
  · simp [animate, h]
  · simp [animate, h, record]

/-- Helper: any sequence of timer ticks leaves a non-running state
unchanged. -/
theorem runTicks_of_not_running (s : SimState) (rs : List (ℚ × ℚ))
    (h : s.isRunning = false) : runTicks s rs = s := by
  induction rs with
  | nil => rfl
  | cons r rs ih =>
      simp [runTicks, animate_of_not_running s r.1 r.2 h, ih]

/-- Claim C1: for any accumulator state with `total ≥ 1`, the standard error
`sqrt(p*(1-p)/total)` with `p = π/4` is nonzero (so the `std == 0` guard
does not fire and no division by zero occurs), the z-score equals
`(observed - p)/std` with `observed = inside/total`, and the π estimate
equals `4 * inside/total`. -/
theorem computeZScore_spec (total inside : ℕ) (h : 1 ≤ total) :
    Real.sqrt ((Real.pi / 4) * (1 - Real.pi / 4) / (total : ℝ)) ≠ 0 ∧
    computeZScore total inside =
      ((inside : ℝ) / (total : ℝ) - Real.pi / 4) /
        Real.sqrt ((Real.pi / 4) * (1 - Real.pi / 4) / (total : ℝ)) ∧
    piEstimateReport total inside = some (4 * ((inside : ℚ) / (total : ℚ))) := by
  have htz : total ≠ 0 := by omega
  have htpos : (0 : ℝ) < (total : ℝ) := by
    exact_mod_cast Nat.pos_of_ne_zero htz
  have hp0 : (0 : ℝ) < Real.pi / 4 := by positivity
  have hp1 : Real.pi / 4 < 1 := by
    have h315 := Real.pi_lt_d2
    linarith
  have harg : (0 : ℝ) < (Real.pi / 4) * (1 - Real.pi / 4) / (total : ℝ) :=
    div_pos (mul_pos hp0 (by linarith)) htpos
  have hstd : (0 : ℝ)
      < Real.sqrt ((Real.pi / 4) * (1 - Real.pi / 4) / (total : ℝ)) :=
    Real.sqrt_pos.mpr harg
  refine ⟨ne_of_gt hstd, ?_, ?_⟩
  · simp only [computeZScore]
    rw [if_neg htz, if_neg (ne_of_gt hstd)]
  · rw [piEstimateReport, if_pos (Nat.pos_of_ne_zero htz), mul_comm]

/-- Witness for C1 at the accumulator state (total, inside) = (1, 1). -/
theorem computeZScore_spec_witness :
    Real.sqrt ((Real.pi / 4) * (1 - Real.pi / 4) / ((1 : ℕ) : ℝ)) ≠ 0 ∧
    computeZScore 1 1 =
      (((1 : ℕ) : ℝ) / ((1 : ℕ) : ℝ) - Real.pi / 4) /
        Real.sqrt ((Real.pi / 4) * (1 - Real.pi / 4) / ((1 : ℕ) : ℝ)) ∧
    piEstimateReport 1 1 = some (4 * (((1 : ℕ) : ℚ) / ((1 : ℕ) : ℚ))) :=
  computeZScore_spec 1 1 (by decide)

/-- Claim C2: the classifier returns inside exactly when the squared distance
to the center is strictly below `radius * radius`; a point whose squared
distance equals `radius * radius` is classified outside. -/
theorem isInside_spec (x y : ℚ) :
    (isInside x y = true ↔
      (x - centerX) * (x - centerX) + (y - centerY) * (y - centerY)
        < radius * radius) ∧
    ((x - centerX) * (x - centerX) + (y - centerY) * (y - centerY)
        = radius * radius → isInside x y = false) := by
  constructor
  · simp [isInside]
  · intro h
    simp [isInside, h]

/-- Witness for C2 at the boundary point (550, 300) of the spec scenario. -/
theorem isInside_spec_witness :
    (((550 : ℚ) - centerX) * ((550 : ℚ) - centerX)
        + ((300 : ℚ) - centerY) * ((300 : ℚ) - centerY) = radius * radius)
    ∧ isInside 550 300 = false := by
  refine ⟨by norm_num [centerX, centerY, radius, offset, squareSize], ?_⟩
  exact (isInside_spec 550 300).2
    (by norm_num [centerX, centerY, radius, offset, squareSize])

/-- Claim C3: recording one sample increments `total` by exactly 1 and
`inside` by 1 when the sample is inside and by 0 otherwise; `total` never
decreases and `inside` is unchanged for a sample classified outside. -/
theorem record_spec (s : SimState) (b : Bool) :
    (record s b).total = s.total + 1 ∧
    (record s b).inside = s.inside + (if b then 1 else 0) ∧
    s.total ≤ (record s b).total ∧
    (b = false → (record s b).inside = s.inside) := by
  cases b <;> simp [record]

/-- Witness for C3 at the initial state with an outside sample. -/
theorem record_spec_witness :
    (record initSimState false).total = initSimState.total + 1 ∧
    (record initSimState false).inside = initSimState.inside :=
  ⟨(record_spec initSimState false).1,
   (record_spec initSimState false).2.2.2 rfl⟩

/-- Claim C4: `inside ≤ total` (both are ℕ, hence `0 ≤ inside` as well)
holds in the initial state and is preserved by recording any sample, by any
`animate` tick, and by `reset`. -/
theorem invariant_inside_le_total (s : SimState) (b : Bool) (rx ry : ℚ)
    (h : s.inside ≤ s.total) :
    initSimState.inside ≤ initSimState.total ∧
    (record s b).inside ≤ (record s b).total ∧
    (animate s rx ry).inside ≤ (animate s rx ry).total ∧
    (reset s).inside ≤ (reset s).total := by
  refine ⟨by simp [initSimState], ?_, ?_, by simp [reset, pause]⟩
  · cases b <;> simp [record] <;> omega
  · by_cases hr : s.isRunning = false
    · rw [animate_of_not_running s rx ry hr]
      exact h
    · cases hI : isInside (sampleCoord rx) (sampleCoord ry) <;>
        simp [animate, hr, hI, record] <;> omega

/-- Witness for C4 at the initial state. -/
theorem invariant_inside_le_total_witness :
    initSimState.inside ≤ initSimState.total ∧
    (record initSimState true).inside ≤ (record initSimState true).total ∧
    (animate initSimState 0 0).inside ≤ (animate initSimState 0 0).total ∧
    (reset initSimState).inside ≤ (reset initSimState).total :=
  invariant_inside_le_total initSimState true 0 0 (by decide)

/-- Claim C5: with `total = 0` the z-score is exactly 0 (the `n === 0`
guard) and `drawStats` omits the π estimate rather than computing it. -/
theorem estimate_at_total_zero (inside : ℕ) :
    computeZScore 0 inside = 0 ∧ piEstimateReport 0 inside = none := by
  simp [computeZScore, piEstimateReport]

/-- Witness for C5 at the empty accumulator. -/
theorem estimate_at_total_zero_witness :
    computeZScore 0 0 = 0 ∧ piEstimateReport 0 0 = none :=
  estimate_at_total_zero 0

/-- Claim C6: from any state, `reset` sets both counters to 0, and calling
`reset` twice in a row yields counters (0, 0) after each call; the second
`reset` reproduces the same state. -/
theorem reset_spec (s : SimState) :
    (reset s).total = 0 ∧ (reset s).inside = 0 ∧
    (reset (reset s)).total = 0 ∧ (reset (reset s)).inside = 0 ∧
    reset (reset s) = reset s :=
  ⟨rfl, rfl, rfl, rfl, rfl⟩

/-- Witness for C6 at a concrete running state with nonzero counters. -/
theorem reset_spec_witness :
    (reset ⟨7, 5, true, true, "Pause"⟩).total = 0 ∧
    (reset ⟨7, 5, true, true, "Pause"⟩).inside = 0 ∧
    (reset (reset ⟨7, 5, true, true, "Pause"⟩)).total = 0 ∧
    (reset (reset ⟨7, 5, true, true, "Pause"⟩)).inside = 0 ∧
    reset (reset ⟨7, 5, true, true, "Pause"⟩) = reset ⟨7, 5, true, true, "Pause"⟩ :=
  reset_spec ⟨7, 5, true, true, "Pause"⟩

/-- Claim C7: for a random draw `r` in [0, 1), the sampled coordinate
`r * squareSize + offset` lies in [offset, offset + squareSize); `animate`
uses this same computation for both the x and the y coordinate. -/
theorem sampleCoord_range (r : ℚ) (h0 : 0 ≤ r) (h1 : r < 1) :
    offset ≤ sampleCoord r ∧ sampleCoord r < offset + squareSize := by
  unfold sampleCoord squareSize offset
  constructor <;> nlinarith

/-- Witness for C7 at the draw r = 1/2. -/
theorem sampleCoord_range_witness :
    offset ≤ sampleCoord (1 / 2) ∧
    sampleCoord (1 / 2) < offset + squareSize :=
  sampleCoord_range (1 / 2) (by norm_num) (by norm_num)

/-- Claim C9: after `pause` the running flag is false and the scheduled
timeout is cancelled, and any sequence of subsequent timer-fired `animate`
ticks records nothing: `total` and `inside` stay exactly as they were;
`resume` restarts the loop by setting the running flag again. -/
theorem pause_stops_sampling (s : SimState) (rs : List (ℚ × ℚ)) (rx ry : ℚ) :
    (pause s).isRunning = false ∧
    (pause s).pending = false ∧
    (runTicks (pause s) rs).total = s.total ∧
    (runTicks (pause s) rs).inside = s.inside ∧
    (resume (pause s) rx ry).isRunning = true := by
  have hnr : (pause s).isRunning = false := rfl
  have hfix := runTicks_of_not_running (pause s) rs hnr
  rw [hfix]
  refine ⟨rfl, rfl, rfl, rfl, ?_⟩
  rw [resume, if_pos hnr, animate_isRunning]

/-- Witness for C9 at a concrete running state and a two-tick sequence. -/
theorem pause_stops_sampling_witness :
    (pause ⟨3, 2, true, true, "Pause"⟩).isRunning = false ∧
    (pause ⟨3, 2, true, true, "Pause"⟩).pending = false ∧
    (runTicks (pause ⟨3, 2, true, true, "Pause"⟩) [(0, 0), (1 / 2, 1 / 2)]).total
      = (⟨3, 2, true, true, "Pause"⟩ : SimState).total ∧
    (runTicks (pause ⟨3, 2, true, true, "Pause"⟩) [(0, 0), (1 / 2, 1 / 2)]).inside
      = (⟨3, 2, true, true, "Pause"⟩ : SimState).inside ∧
    (resume (pause ⟨3, 2, true, true, "Pause"⟩) 0 0).isRunning = true :=
  pause_stops_sampling ⟨3, 2, true, true, "Pause"⟩ [(0, 0), (1 / 2, 1 / 2)] 0 0

/-- Claim C10: `resume` on an already-running state is a no-op — it changes
no field at all — and `resume` composed with `resume` equals a single
`resume` (the second call always sees a running state). -/
theorem resume_noop_when_running (s : SimState) (rx ry r2x r2y : ℚ) :
    (s.isRunning = true → resume s rx ry = s) ∧
    resume (resume s rx ry) r2x r2y = resume s rx ry := by
  constructor
  · intro h
    rw [resume, if_neg (by rw [h]; simp)]
  · by_cases h : s.isRunning = false
    · have hrun : (resume s rx ry).isRunning = true := by
        rw [resume, if_pos h, animate_isRunning]
      rw [resume, if_neg (by rw [hrun]; simp)]
    · have h1 : resume s rx ry = s := by
        rw [resume, if_neg h]
      rw [h1]
      rw [resume, if_neg h]

/-- Witness for C10 at a concrete running state. -/
theorem resume_noop_when_running_witness :
    resume ⟨4, 3, true, true, "Pause"⟩ 0 0 = ⟨4, 3, true, true, "Pause"⟩ ∧
    resume (resume ⟨4, 3, true, true, "Pause"⟩ 0 0) (1 / 2) (1 / 2)
      = resume ⟨4, 3, true, true, "Pause"⟩ 0 0 :=
  ⟨(resume_noop_when_running ⟨4, 3, true, true, "Pause"⟩ 0 0 (1 / 2) (1 / 2)).1 rfl,
   (resume_noop_when_running ⟨4, 3, true, true, "Pause"⟩ 0 0 (1 / 2) (1 / 2)).2⟩

end MonteCarloPi
